import Mathlib

set_option linter.unusedSectionVars false
set_option linter.unusedVariables false

/-!
Shallow embedding of `src/src/eventbuilder/sps_data.rs` (SPShub event builder).

Floating-point (`f64`) values are idealized as elements of a linear ordered
field `α` (instantiated at `ℚ` for executable checks and at `ℝ` where the
trigonometric functions `atan`/`π` matter).  The `f64::atan` function and the
constant `std::f64::consts::PI` are passed to `append_event` as explicit
parameters `arctan`/`pi`, instantiated with `Real.arctan`/`Real.pi` over `ℝ`.

The column store `BTreeMap<SPSDataField, Vec<f64>>` always holds exactly the
full field set (it is filled at construction and keys are never inserted or
removed afterwards: `set_value` only uses `get_mut`), so it is embedded as a
total function `SPSDataField → List α`; the BTreeMap's sorted iteration order
is captured by `get_field_vec` together with the theorems showing that list is
sorted in the field order and enumerates every field exactly once.
-/

namespace SPS

/-- Modelled from the spec: the external channel map's role enumeration
(`channel_map.rs` is an external collaborator, not under `src/`).  Its
variants are the roles routed by `append_event`, plus one extra constructor
standing for any role that falls to the wildcard `_ => continue` arm of the
router's match. -/
inductive SPSChannelType where
  | ScintLeft
  | ScintRight
  | Cathode
  | DelayFrontRight
  | DelayFrontLeft
  | DelayBackRight
  | DelayBackLeft
  | AnodeFront
  | AnodeBack
  | Cebra0
  | Cebra1
  | Cebra2
  | Cebra3
  | Cebra4
  | Cebra5
  | Cebra6
  | UnroutedRole
  deriving DecidableEq, Repr, Fintype

/-- One digitizer hit (`CompassData`): an opaque channel identity plus the
three readings routed to columns.  The channel identity `uuid` is embedded as
a natural number; only its role under the external lookup matters. -/
structure CompassData (α : Type) where
  uuid : Nat
  energy : α
  energy_short : α
  timestamp : α

/-- The sentinel constant `INVALID_VALUE: f64 = -1.0e6`. -/
def INVALID_VALUE {α : Type} [LinearOrderedField α] : α := -1000000

/-- The fixed output schema `SPSDataField`, in Rust declaration order. -/
inductive SPSDataField where
  | AnodeFrontEnergy
  | AnodeFrontShort
  | AnodeFrontTime
  | AnodeBackEnergy
  | AnodeBackShort
  | AnodeBackTime
  | ScintLeftEnergy
  | ScintLeftShort
  | ScintLeftTime
  | ScintRightEnergy
  | ScintRightShort
  | ScintRightTime
  | CathodeEnergy
  | CathodeShort
  | CathodeTime
  | DelayFrontLeftEnergy
  | DelayFrontLeftShort
  | DelayFrontLeftTime
  | DelayFrontRightEnergy
  | DelayFrontRightShort
  | DelayFrontRightTime
  | DelayBackLeftEnergy
  | DelayBackLeftShort
  | DelayBackLeftTime
  | DelayBackRightEnergy
  | DelayBackRightShort
  | DelayBackRightTime
  | X1
  | X2
  | Xavg
  | Theta
  | Cebra0Energy
  | Cebra1Energy
  | Cebra2Energy
  | Cebra3Energy
  | Cebra4Energy
  | Cebra5Energy
  | Cebra6Energy
  | Cebra0Short
  | Cebra1Short
  | Cebra2Short
  | Cebra3Short
  | Cebra4Short
  | Cebra5Short
  | Cebra6Short
  | Cebra0Time
  | Cebra1Time
  | Cebra2Time
  | Cebra3Time
  | Cebra4Time
  | Cebra5Time
  | Cebra6Time
  deriving DecidableEq, Repr, Fintype

namespace SPSDataField

/-- Discriminant of the field, i.e. its position in the Rust declaration
order.  The derived `Ord`/`PartialOrd` on the Rust enum compare exactly these
discriminants, so this number is the enum's total order key. -/
def discriminant : SPSDataField → Nat
  | AnodeFrontEnergy => 0
  | AnodeFrontShort => 1
  | AnodeFrontTime => 2
  | AnodeBackEnergy => 3
  | AnodeBackShort => 4
  | AnodeBackTime => 5
  | ScintLeftEnergy => 6
  | ScintLeftShort => 7
  | ScintLeftTime => 8
  | ScintRightEnergy => 9
  | ScintRightShort => 10
  | ScintRightTime => 11
  | CathodeEnergy => 12
  | CathodeShort => 13
  | CathodeTime => 14
  | DelayFrontLeftEnergy => 15
  | DelayFrontLeftShort => 16
  | DelayFrontLeftTime => 17
  | DelayFrontRightEnergy => 18
  | DelayFrontRightShort => 19
  | DelayFrontRightTime => 20
  | DelayBackLeftEnergy => 21
  | DelayBackLeftShort => 22
  | DelayBackLeftTime => 23
  | DelayBackRightEnergy => 24
  | DelayBackRightShort => 25
  | DelayBackRightTime => 26
  | X1 => 27
  | X2 => 28
  | Xavg => 29
  | Theta => 30
  | Cebra0Energy => 31
  | Cebra1Energy => 32
  | Cebra2Energy => 33
  | Cebra3Energy => 34
  | Cebra4Energy => 35
  | Cebra5Energy => 36
  | Cebra6Energy => 37
  | Cebra0Short => 38
  | Cebra1Short => 39
  | Cebra2Short => 40
  | Cebra3Short => 41
  | Cebra4Short => 42
  | Cebra5Short => 43
  | Cebra6Short => 44
  | Cebra0Time => 45
  | Cebra1Time => 46
  | Cebra2Time => 47
  | Cebra3Time => 48
  | Cebra4Time => 49
  | Cebra5Time => 50
  | Cebra6Time => 51

/-- The stable string rendering of a field, as produced by the derived
`AsRefStr` (`as_ref` yields the variant's name). -/
def as_ref_str : SPSDataField → String
  | AnodeFrontEnergy => "AnodeFrontEnergy"
  | AnodeFrontShort => "AnodeFrontShort"
  | AnodeFrontTime => "AnodeFrontTime"
  | AnodeBackEnergy => "AnodeBackEnergy"
  | AnodeBackShort => "AnodeBackShort"
  | AnodeBackTime => "AnodeBackTime"
  | ScintLeftEnergy => "ScintLeftEnergy"
  | ScintLeftShort => "ScintLeftShort"
  | ScintLeftTime => "ScintLeftTime"
  | ScintRightEnergy => "ScintRightEnergy"
  | ScintRightShort => "ScintRightShort"
  | ScintRightTime => "ScintRightTime"
  | CathodeEnergy => "CathodeEnergy"
  | CathodeShort => "CathodeShort"
  | CathodeTime => "CathodeTime"
  | DelayFrontLeftEnergy => "DelayFrontLeftEnergy"
  | DelayFrontLeftShort => "DelayFrontLeftShort"
  | DelayFrontLeftTime => "DelayFrontLeftTime"
  | DelayFrontRightEnergy => "DelayFrontRightEnergy"
  | DelayFrontRightShort => "DelayFrontRightShort"
  | DelayFrontRightTime => "DelayFrontRightTime"
  | DelayBackLeftEnergy => "DelayBackLeftEnergy"
  | DelayBackLeftShort => "DelayBackLeftShort"
  | DelayBackLeftTime => "DelayBackLeftTime"
  | DelayBackRightEnergy => "DelayBackRightEnergy"
  | DelayBackRightShort => "DelayBackRightShort"
  | DelayBackRightTime => "DelayBackRightTime"
  | X1 => "X1"
  | X2 => "X2"
  | Xavg => "Xavg"
  | Theta => "Theta"
  | Cebra0Energy => "Cebra0Energy"
  | Cebra1Energy => "Cebra1Energy"
  | Cebra2Energy => "Cebra2Energy"
  | Cebra3Energy => "Cebra3Energy"
  | Cebra4Energy => "Cebra4Energy"
  | Cebra5Energy => "Cebra5Energy"
  | Cebra6Energy => "Cebra6Energy"
  | Cebra0Short => "Cebra0Short"
  | Cebra1Short => "Cebra1Short"
  | Cebra2Short => "Cebra2Short"
  | Cebra3Short => "Cebra3Short"
  | Cebra4Short => "Cebra4Short"
  | Cebra5Short => "Cebra5Short"
  | Cebra6Short => "Cebra6Short"
  | Cebra0Time => "Cebra0Time"
  | Cebra1Time => "Cebra1Time"
  | Cebra2Time => "Cebra2Time"
  | Cebra3Time => "Cebra3Time"
  | Cebra4Time => "Cebra4Time"
  | Cebra5Time => "Cebra5Time"
  | Cebra6Time => "Cebra6Time"

/-- The list of all fields, in the order produced by the derived `EnumIter`
(`SPSDataField::iter()` yields variants in declaration order); this is
`SPSDataField::get_field_vec`. -/
def get_field_vec : List SPSDataField :=
  [AnodeFrontEnergy, AnodeFrontShort, AnodeFrontTime,
   AnodeBackEnergy, AnodeBackShort, AnodeBackTime,
   ScintLeftEnergy, ScintLeftShort, ScintLeftTime,
   ScintRightEnergy, ScintRightShort, ScintRightTime,
   CathodeEnergy, CathodeShort, CathodeTime,
   DelayFrontLeftEnergy, DelayFrontLeftShort, DelayFrontLeftTime,
   DelayFrontRightEnergy, DelayFrontRightShort, DelayFrontRightTime,
   DelayBackLeftEnergy, DelayBackLeftShort, DelayBackLeftTime,
   DelayBackRightEnergy, DelayBackRightShort, DelayBackRightTime,
   X1, X2, Xavg, Theta,
   Cebra0Energy, Cebra1Energy, Cebra2Energy, Cebra3Energy,
   Cebra4Energy, Cebra5Energy, Cebra6Energy,
   Cebra0Short, Cebra1Short, Cebra2Short, Cebra3Short,
   Cebra4Short, Cebra5Short, Cebra6Short,
   Cebra0Time, Cebra1Time, Cebra2Time, Cebra3Time,
   Cebra4Time, Cebra5Time, Cebra6Time]

end SPSDataField

/-- The row-builder state `SPSData`: the column store plus the row counter.
The `BTreeMap` is embedded as a total function (see file header). -/
structure SPSData (α : Type) where
  fields : SPSDataField → List α
  rows : Nat

namespace SPSData

variable {α : Type} [LinearOrderedField α]

/-- The `Default` construction: every field present with an empty column,
`rows = 0`. -/
def init : SPSData α := { fields := fun _ => [], rows := 0 }

/-- Overwrite the last element of a list, if there is one (the effect of
`list.last_mut()` assignment in `set_value`). -/
def setLast : List α → α → List α
  | [], _ => []
  | [_], v => [v]
  | x :: y :: xs, v => x :: setLast (y :: xs) v

/-- The method `SPSData::push_defaults`: for each column shorter than `rows`,
push one `INVALID_VALUE`. -/
def push_defaults (d : SPSData α) : SPSData α :=
  { d with fields := fun f =>
      if (d.fields f).length < d.rows then d.fields f ++ [INVALID_VALUE]
      else d.fields f }

/-- The method `SPSData::set_value`: update the last element of the given
field's column to the given value (a no-op on an empty column). -/
def set_value (d : SPSData α) (field : SPSDataField) (value : α) : SPSData α :=
  { d with fields := fun f =>
      if f = field then setLast (d.fields f) value else d.fields f }

end SPSData

/-- The loop state of `append_event`'s hit loop: the builder plus the four
captured delay-line timestamps (`dfl_time`, `dfr_time`, `dbl_time`,
`dbr_time`), each initialized to `INVALID_VALUE`. -/
structure HitState (α : Type) where
  data : SPSData α
  dfl_time : α
  dfr_time : α
  dbl_time : α
  dbr_time : α

namespace SPSData

variable {α : Type} [LinearOrderedField α]

open SPSDataField SPSChannelType

/-- One iteration of `append_event`'s hit loop: resolve the hit's role via
the channel map; on no role (or a role the match's wildcard arm ignores) do
nothing, otherwise overwrite the role's energy / short / timestamp columns
for the current row and capture delay-line timestamps. -/
def process_hit (map : Nat → Option SPSChannelType) (st : HitState α)
    (hit : CompassData α) : HitState α :=
  match map hit.uuid with
  | none => st
  | some channel_type =>
    match channel_type with
    | ScintLeft =>
        { st with data := ((st.data.set_value ScintLeftEnergy hit.energy).set_value
            ScintLeftShort hit.energy_short).set_value ScintLeftTime hit.timestamp }
    | ScintRight =>
        { st with data := ((st.data.set_value ScintRightEnergy hit.energy).set_value
            ScintRightShort hit.energy_short).set_value ScintRightTime hit.timestamp }
    | Cathode =>
        { st with data := ((st.data.set_value CathodeEnergy hit.energy).set_value
            CathodeShort hit.energy_short).set_value CathodeTime hit.timestamp }
    | DelayFrontRight =>
        { st with
          data := ((st.data.set_value DelayFrontRightEnergy hit.energy).set_value
            DelayFrontRightShort hit.energy_short).set_value DelayFrontRightTime hit.timestamp,
          dfr_time := hit.timestamp }
    | DelayFrontLeft =>
        { st with
          data := ((st.data.set_value DelayFrontLeftEnergy hit.energy).set_value
            DelayFrontLeftShort hit.energy_short).set_value DelayFrontLeftTime hit.timestamp,
          dfl_time := hit.timestamp }
    | DelayBackRight =>
        { st with
          data := ((st.data.set_value DelayBackRightEnergy hit.energy).set_value
            DelayBackRightShort hit.energy_short).set_value DelayBackRightTime hit.timestamp,
          dbr_time := hit.timestamp }
    | DelayBackLeft =>
        { st with
          data := ((st.data.set_value DelayBackLeftEnergy hit.energy).set_value
            DelayBackLeftShort hit.energy_short).set_value DelayBackLeftTime hit.timestamp,
          dbl_time := hit.timestamp }
    | AnodeFront =>
        { st with data := ((st.data.set_value AnodeFrontEnergy hit.energy).set_value
            AnodeFrontShort hit.energy_short).set_value AnodeFrontTime hit.timestamp }
    | AnodeBack =>
        { st with data := ((st.data.set_value AnodeBackEnergy hit.energy).set_value
            AnodeBackShort hit.energy_short).set_value AnodeBackTime hit.timestamp }
    | Cebra0 =>
        { st with data := ((st.data.set_value Cebra0Energy hit.energy).set_value
            Cebra0Short hit.energy_short).set_value Cebra0Time hit.timestamp }
    | Cebra1 =>
        { st with data := ((st.data.set_value Cebra1Energy hit.energy).set_value
            Cebra1Short hit.energy_short).set_value Cebra1Time hit.timestamp }
    | Cebra2 =>
        { st with data := ((st.data.set_value Cebra2Energy hit.energy).set_value
            Cebra2Short hit.energy_short).set_value Cebra2Time hit.timestamp }
    | Cebra3 =>
        { st with data := ((st.data.set_value Cebra3Energy hit.energy).set_value
            Cebra3Short hit.energy_short).set_value Cebra3Time hit.timestamp }
    | Cebra4 =>
        { st with data := ((st.data.set_value Cebra4Energy hit.energy).set_value
            Cebra4Short hit.energy_short).set_value Cebra4Time hit.timestamp }
    | Cebra5 =>
        { st with data := ((st.data.set_value Cebra5Energy hit.energy).set_value
            Cebra5Short hit.energy_short).set_value Cebra5Time hit.timestamp }
    | Cebra6 =>
        { st with data := ((st.data.set_value Cebra6Energy hit.energy).set_value
            Cebra6Short hit.energy_short).set_value Cebra6Time hit.timestamp }
    | UnroutedRole => st

/-- The value carried by the local `x1` after the first conditional of the
physics tail: the front position estimate when both front delay-line
timestamps were captured, the sentinel it was initialized with otherwise. -/
def x1_value (st : HitState α) : α :=
  if st.dfr_time ≠ INVALID_VALUE ∧ st.dfl_time ≠ INVALID_VALUE then
    (st.dfl_time - st.dfr_time) * 0.5 * 1.0 / 2.1
  else INVALID_VALUE

/-- The value carried by the local `x2` after the second conditional of the
physics tail: the back position estimate when both back delay-line
timestamps were captured, the sentinel otherwise. -/
def x2_value (st : HitState α) : α :=
  if st.dbr_time ≠ INVALID_VALUE ∧ st.dbl_time ≠ INVALID_VALUE then
    (st.dbl_time - st.dbr_time) * 0.5 * 1.0 / 1.98
  else INVALID_VALUE

/-- The physics tail of `append_event`: compute the two position estimates
from the captured delay-line timestamps, then the angle and the weighted
average position, each written only under the source's guards. -/
def physics (st : HitState α) (weights : Option (α × α)) (arctan : α → α)
    (pi : α) : SPSData α :=
  let x1 : α := x1_value st
  let d1 : SPSData α :=
    if st.dfr_time ≠ INVALID_VALUE ∧ st.dfl_time ≠ INVALID_VALUE then
      st.data.set_value SPSDataField.X1 x1
    else st.data
  let x2 : α := x2_value st
  let d2 : SPSData α :=
    if st.dbr_time ≠ INVALID_VALUE ∧ st.dbl_time ≠ INVALID_VALUE then
      d1.set_value SPSDataField.X2 x2
    else d1
  if x1 ≠ INVALID_VALUE ∧ x2 ≠ INVALID_VALUE then
    let diff := x2 - x1
    let d3 : SPSData α :=
      if diff > 0 then d2.set_value SPSDataField.Theta (arctan (diff / 36.0))
      else if diff < 0 then d2.set_value SPSDataField.Theta (pi + arctan (diff / 36.0))
      else d2.set_value SPSDataField.Theta (pi * 0.5)
    match weights with
    | some w => d3.set_value SPSDataField.Xavg (w.1 * x1 + w.2 * x2)
    | none => d3.set_value SPSDataField.Xavg INVALID_VALUE
  else d2

/-- The loop state at the end of `append_event`'s hit loop: start from the
builder with the row counter bumped and every column aligned by one pushed
sentinel, the four captured timestamps initialized to the sentinel, and run
the hit loop over the event. -/
def hit_state (d : SPSData α) (event : List (CompassData α))
    (map : Nat → Option SPSChannelType) : HitState α :=
  event.foldl (process_hit map)
    { data := push_defaults { d with rows := d.rows + 1 },
      dfl_time := INVALID_VALUE, dfr_time := INVALID_VALUE,
      dbl_time := INVALID_VALUE, dbr_time := INVALID_VALUE }

/-- The method `SPSData::append_event`: bump the row counter, align every
column by pushing sentinels, route each hit, then run the physics tail. -/
def append_event (d : SPSData α) (event : List (CompassData α))
    (map : Nat → Option SPSChannelType) (weights : Option (α × α))
    (arctan : α → α) (pi : α) : SPSData α :=
  physics (hit_state d event map) weights arctan pi

/-- The method `SPSData::convert_to_series`: iterate the column store in the
BTreeMap's key order (= field declaration order), pairing each field's stable
name with its column. -/
def convert_to_series (d : SPSData α) : List (String × List α) :=
  SPSDataField.get_field_vec.map (fun f => (f.as_ref_str, d.fields f))

end SPSData

/-- The column trio a routed role overwrites, in the order the router's match
arm writes them (energy, short-gate energy, timestamp); empty for a role
falling to the wildcard arm. -/
def role_fields : SPSChannelType → List SPSDataField
  | .ScintLeft => [.ScintLeftEnergy, .ScintLeftShort, .ScintLeftTime]
  | .ScintRight => [.ScintRightEnergy, .ScintRightShort, .ScintRightTime]
  | .Cathode => [.CathodeEnergy, .CathodeShort, .CathodeTime]
  | .DelayFrontRight => [.DelayFrontRightEnergy, .DelayFrontRightShort, .DelayFrontRightTime]
  | .DelayFrontLeft => [.DelayFrontLeftEnergy, .DelayFrontLeftShort, .DelayFrontLeftTime]
  | .DelayBackRight => [.DelayBackRightEnergy, .DelayBackRightShort, .DelayBackRightTime]
  | .DelayBackLeft => [.DelayBackLeftEnergy, .DelayBackLeftShort, .DelayBackLeftTime]
  | .AnodeFront => [.AnodeFrontEnergy, .AnodeFrontShort, .AnodeFrontTime]
  | .AnodeBack => [.AnodeBackEnergy, .AnodeBackShort, .AnodeBackTime]
  | .Cebra0 => [.Cebra0Energy, .Cebra0Short, .Cebra0Time]
  | .Cebra1 => [.Cebra1Energy, .Cebra1Short, .Cebra1Time]
  | .Cebra2 => [.Cebra2Energy, .Cebra2Short, .Cebra2Time]
  | .Cebra3 => [.Cebra3Energy, .Cebra3Short, .Cebra3Time]
  | .Cebra4 => [.Cebra4Energy, .Cebra4Short, .Cebra4Time]
  | .Cebra5 => [.Cebra5Energy, .Cebra5Short, .Cebra5Time]
  | .Cebra6 => [.Cebra6Energy, .Cebra6Short, .Cebra6Time]
  | .UnroutedRole => []

/-- The four delay-line timestamps captured by the hit loop. -/
structure DelayTimes (α : Type) where
  dfl : α
  dfr : α
  dbl : α
  dbr : α
  deriving DecidableEq, Repr

/-- The four captured delay-line timestamps left by scanning the event, each
starting from a given value and overwritten by every hit resolving to the
matching delay-line role (so the last such hit wins). -/
def capture_times {α : Type} (map : Nat → Option SPSChannelType) :
    DelayTimes α → List (CompassData α) → DelayTimes α
  | t, [] => t
  | t, hit :: rest =>
      capture_times map
        (match map hit.uuid with
         | some .DelayFrontLeft => { t with dfl := hit.timestamp }
         | some .DelayFrontRight => { t with dfr := hit.timestamp }
         | some .DelayBackLeft => { t with dbl := hit.timestamp }
         | some .DelayBackRight => { t with dbr := hit.timestamp }
         | _ => t) rest

/-- The all-sentinel initial value of the captured delay-line timestamps. -/
def init_times {α : Type} [LinearOrderedField α] : DelayTimes α :=
  { dfl := INVALID_VALUE, dfr := INVALID_VALUE,
    dbl := INVALID_VALUE, dbr := INVALID_VALUE }

/-- Row alignment: every column's length equals the row counter. -/
def Aligned {α : Type} (d : SPSData α) : Prop :=
  ∀ f : SPSDataField, (d.fields f).length = d.rows

/-- The quadruple of captured delay-line timestamps held in a loop state. -/
def times_of {α : Type} (st : HitState α) : DelayTimes α :=
  { dfl := st.dfl_time, dfr := st.dfr_time, dbl := st.dbl_time, dbr := st.dbr_time }

/-- The arguments of one `append_event` call: one event, its channel map and
the optional averaged-position weights. -/
structure EventCall (α : Type) where
  event : List (CompassData α)
  map : Nat → Option SPSChannelType
  weights : Option (α × α)

/-- Run a sequence of `append_event` calls, in order, from a given state. -/
def applyEvents {α : Type} [LinearOrderedField α] (arctan : α → α) (pi : α) :
    SPSData α → List (EventCall α) → SPSData α
  | d, [] => d
  | d, c :: cs => applyEvents arctan pi (d.append_event c.event c.map c.weights arctan pi) cs

/-- A small concrete channel map used for evaluating the theorems on concrete
events: identities 0–5 carry delay-line, scintillator and anode roles,
everything else is unmapped. -/
def testMap : Nat → Option SPSChannelType := fun n =>
  if n = 0 then some SPSChannelType.DelayFrontLeft
  else if n = 1 then some SPSChannelType.DelayFrontRight
  else if n = 2 then some SPSChannelType.DelayBackLeft
  else if n = 3 then some SPSChannelType.DelayBackRight
  else if n = 4 then some SPSChannelType.ScintLeft
  else if n = 5 then some SPSChannelType.AnodeFront
  else none

/-! ### Helper lemmas about the embedded operations -/

namespace SPSData

variable {α : Type} [LinearOrderedField α]

theorem setLast_length : ∀ (l : List α) (v : α), (setLast l v).length = l.length
  | [], _ => rfl
  | [_], _ => rfl
  | x :: y :: xs, v => by
      show (x :: setLast (y :: xs) v).length = (x :: y :: xs).length
      simp [setLast_length (y :: xs) v]

theorem setLast_append : ∀ (l : List α) (x v : α), setLast (l ++ [x]) v = l ++ [v]
  | [], _, _ => rfl
  | [y], _, _ => rfl
  | y :: z :: l, x, v => by
      show y :: setLast ((z :: l) ++ [x]) v = y :: ((z :: l) ++ [v])
      rw [setLast_append (z :: l) x v]

theorem set_value_rows (d : SPSData α) (g : SPSDataField) (v : α) :
    (d.set_value g v).rows = d.rows := rfl

theorem set_value_fields_eq (d : SPSData α) (g : SPSDataField) (v : α) :
    (d.set_value g v).fields g = setLast (d.fields g) v := by
  simp [set_value]

theorem set_value_fields_ne (d : SPSData α) (f g : SPSDataField) (v : α)
    (h : f ≠ g) : (d.set_value g v).fields f = d.fields f := by
  simp [set_value, h]

theorem set_value_length (d : SPSData α) (f g : SPSDataField) (v : α) :
    ((d.set_value g v).fields f).length = (d.fields f).length := by
  by_cases h : f = g
  · subst h; simp [set_value_fields_eq, setLast_length]
  · rw [set_value_fields_ne d f g v h]

theorem push_defaults_rows (d : SPSData α) : (push_defaults d).rows = d.rows := rfl

theorem push_defaults_fields_of_aligned (d : SPSData α) (h : Aligned d)
    (f : SPSDataField) :
    (push_defaults { d with rows := d.rows + 1 }).fields f =
      d.fields f ++ [INVALID_VALUE] := by
  have hlt : (d.fields f).length < d.rows + 1 := by rw [h f]; exact Nat.lt_succ_self _
  simp [push_defaults, hlt]

theorem process_hit_rows (map : Nat → Option SPSChannelType) (st : HitState α)
    (hit : CompassData α) :
    (process_hit map st hit).data.rows = st.data.rows := by
  unfold process_hit
  rcases hm : map hit.uuid with - | r
  · rfl
  · cases r <;> simp [set_value_rows]

theorem process_hit_length (map : Nat → Option SPSChannelType) (st : HitState α)
    (hit : CompassData α) (f : SPSDataField) :
    ((process_hit map st hit).data.fields f).length = (st.data.fields f).length := by
  unfold process_hit
  rcases hm : map hit.uuid with - | r
  · rfl
  · cases r <;> simp [set_value_length]

theorem process_hit_times (map : Nat → Option SPSChannelType) (st : HitState α)
    (hit : CompassData α) :
    (process_hit map st hit).dfl_time =
      (if map hit.uuid = some SPSChannelType.DelayFrontLeft then hit.timestamp
       else st.dfl_time) ∧
    (process_hit map st hit).dfr_time =
      (if map hit.uuid = some SPSChannelType.DelayFrontRight then hit.timestamp
       else st.dfr_time) ∧
    (process_hit map st hit).dbl_time =
      (if map hit.uuid = some SPSChannelType.DelayBackLeft then hit.timestamp
       else st.dbl_time) ∧
    (process_hit map st hit).dbr_time =
      (if map hit.uuid = some SPSChannelType.DelayBackRight then hit.timestamp
       else st.dbr_time) := by
  unfold process_hit
  rcases hm : map hit.uuid with - | r
  · simp
  · cases r <;> simp

theorem process_hit_fields_frame (map : Nat → Option SPSChannelType)
    (st : HitState α) (hit : CompassData α) (f : SPSDataField)
    (hf : ∀ r, map hit.uuid = some r → f ∉ role_fields r) :
    (process_hit map st hit).data.fields f = st.data.fields f := by
  unfold process_hit
  rcases hm : map hit.uuid with - | r
  · rfl
  · have hfr := hf r hm
    cases r <;> simp [role_fields] at hfr <;>
      simp [set_value, hfr]

theorem process_hit_write (map : Nat → Option SPSChannelType) (st : HitState α)
    (hit : CompassData α) (r : SPSChannelType) (fe fs ft : SPSDataField)
    (hm : map hit.uuid = some r) (hr : role_fields r = [fe, fs, ft]) :
    (process_hit map st hit).data.fields fe = setLast (st.data.fields fe) hit.energy ∧
    (process_hit map st hit).data.fields fs = setLast (st.data.fields fs) hit.energy_short ∧
    (process_hit map st hit).data.fields ft = setLast (st.data.fields ft) hit.timestamp := by
  unfold process_hit
  cases r <;> simp only [role_fields, List.cons.injEq, and_true] at hr <;>
    first
    | (obtain ⟨rfl, rfl, rfl⟩ := hr
       simp [hm, set_value])
    | exact absurd hr (by simp)

theorem times_of_process_hit (map : Nat → Option SPSChannelType)
    (st : HitState α) (hit : CompassData α) :
    times_of (process_hit map st hit) =
      (match map hit.uuid with
       | some SPSChannelType.DelayFrontLeft => { times_of st with dfl := hit.timestamp }
       | some SPSChannelType.DelayFrontRight => { times_of st with dfr := hit.timestamp }
       | some SPSChannelType.DelayBackLeft => { times_of st with dbl := hit.timestamp }
       | some SPSChannelType.DelayBackRight => { times_of st with dbr := hit.timestamp }
       | _ => times_of st) := by
  rcases hm : map hit.uuid with - | r
  · simp [process_hit, times_of, hm]
  · cases r <;> simp [process_hit, times_of, hm]

theorem foldl_process_times (map : Nat → Option SPSChannelType) :
    ∀ (event : List (CompassData α)) (st : HitState α),
      times_of (event.foldl (process_hit map) st) = capture_times map (times_of st) event
  | [], _ => rfl
  | hit :: rest, st => by
      rw [List.foldl_cons, foldl_process_times map rest (process_hit map st hit),
          times_of_process_hit]
      rfl

theorem foldl_process_rows (map : Nat → Option SPSChannelType) :
    ∀ (event : List (CompassData α)) (st : HitState α),
      (event.foldl (process_hit map) st).data.rows = st.data.rows
  | [], _ => rfl
  | hit :: rest, st => by
      rw [List.foldl_cons, foldl_process_rows map rest (process_hit map st hit),
          process_hit_rows]

theorem foldl_process_length (map : Nat → Option SPSChannelType) (f : SPSDataField) :
    ∀ (event : List (CompassData α)) (st : HitState α),
      ((event.foldl (process_hit map) st).data.fields f).length =
        (st.data.fields f).length
  | [], _ => rfl
  | hit :: rest, st => by
      rw [List.foldl_cons, foldl_process_length map f rest (process_hit map st hit),
          process_hit_length]

theorem foldl_process_fields_frame (map : Nat → Option SPSChannelType) (f : SPSDataField) :
    ∀ (event : List (CompassData α)) (st : HitState α),
      (∀ hit ∈ event, ∀ r, map hit.uuid = some r → f ∉ role_fields r) →
      (event.foldl (process_hit map) st).data.fields f = st.data.fields f
  | [], _, _ => rfl
  | hit :: rest, st, h => by
      rw [List.foldl_cons,
          foldl_process_fields_frame map f rest (process_hit map st hit)
            (fun h' hh' => h h' (List.mem_cons_of_mem _ hh')),
          process_hit_fields_frame map st hit f (h hit (List.mem_cons_self _ _))]

set_option maxHeartbeats 2000000 in
theorem role_fields_inj : ∀ (f : SPSDataField) (r r' : SPSChannelType),
    f ∈ role_fields r → f ∈ role_fields r' → r = r' := by decide

theorem setLast_getLast (l : List α) (v : α) (h : l ≠ []) :
    (setLast l v).getLast? = some v := by
  rcases l.eq_nil_or_concat with rfl | ⟨L, b, rfl⟩
  · exact absurd rfl h
  · rw [List.concat_eq_append, setLast_append, List.getLast?_concat]

theorem physics_rows (st : HitState α) (w : Option (α × α)) (a : α → α) (p : α) :
    (physics st w a p).rows = st.data.rows := by
  unfold physics
  cases w <;> simp only [ne_eq] <;> split_ifs <;> simp [set_value_rows]

theorem physics_length (st : HitState α) (w : Option (α × α)) (a : α → α) (p : α)
    (f : SPSDataField) :
    ((physics st w a p).fields f).length = (st.data.fields f).length := by
  unfold physics
  cases w <;> simp only [ne_eq] <;> split_ifs <;> simp [set_value_length]

theorem physics_fields_frame (st : HitState α) (w : Option (α × α)) (a : α → α)
    (p : α) (f : SPSDataField) (h1 : f ≠ SPSDataField.X1) (h2 : f ≠ SPSDataField.X2)
    (h3 : f ≠ SPSDataField.Theta) (h4 : f ≠ SPSDataField.Xavg) :
    (physics st w a p).fields f = st.data.fields f := by
  unfold physics
  cases w <;> simp only [ne_eq] <;> split_ifs <;>
    simp [set_value_fields_ne _ _ _ _ h1, set_value_fields_ne _ _ _ _ h2,
      set_value_fields_ne _ _ _ _ h3, set_value_fields_ne _ _ _ _ h4]

theorem physics_X1_written (st : HitState α) (w : Option (α × α)) (a : α → α)
    (p : α) (hg : st.dfr_time ≠ INVALID_VALUE ∧ st.dfl_time ≠ INVALID_VALUE) :
    (physics st w a p).fields SPSDataField.X1 =
      setLast (st.data.fields SPSDataField.X1)
        ((st.dfl_time - st.dfr_time) * 0.5 * 1.0 / 2.1) := by
  unfold physics
  cases w <;> simp only [ne_eq] <;> split_ifs <;>
    simp_all [x1_value, set_value_fields_eq, set_value_fields_ne]

theorem physics_X1_skipped (st : HitState α) (w : Option (α × α)) (a : α → α)
    (p : α) (hg : ¬(st.dfr_time ≠ INVALID_VALUE ∧ st.dfl_time ≠ INVALID_VALUE)) :
    (physics st w a p).fields SPSDataField.X1 = st.data.fields SPSDataField.X1 := by
  unfold physics
  cases w <;> simp only [ne_eq] <;> split_ifs <;>
    simp_all [set_value_fields_eq, set_value_fields_ne]

theorem physics_X2_written (st : HitState α) (w : Option (α × α)) (a : α → α)
    (p : α) (hg : st.dbr_time ≠ INVALID_VALUE ∧ st.dbl_time ≠ INVALID_VALUE) :
    (physics st w a p).fields SPSDataField.X2 =
      setLast (st.data.fields SPSDataField.X2)
        ((st.dbl_time - st.dbr_time) * 0.5 * 1.0 / 1.98) := by
  unfold physics
  cases w <;> simp only [ne_eq] <;> split_ifs <;>
    simp_all [x2_value, set_value_fields_eq, set_value_fields_ne]

theorem physics_X2_skipped (st : HitState α) (w : Option (α × α)) (a : α → α)
    (p : α) (hg : ¬(st.dbr_time ≠ INVALID_VALUE ∧ st.dbl_time ≠ INVALID_VALUE)) :
    (physics st w a p).fields SPSDataField.X2 = st.data.fields SPSDataField.X2 := by
  unfold physics
  cases w <;> simp only [ne_eq] <;> split_ifs <;>
    simp_all [set_value_fields_eq, set_value_fields_ne]

theorem physics_Theta_written (st : HitState α) (w : Option (α × α)) (a : α → α)
    (p : α) (hg : x1_value st ≠ INVALID_VALUE ∧ x2_value st ≠ INVALID_VALUE) :
    (physics st w a p).fields SPSDataField.Theta =
      setLast (st.data.fields SPSDataField.Theta)
        (if x2_value st - x1_value st > 0 then a ((x2_value st - x1_value st) / 36.0)
         else if x2_value st - x1_value st < 0 then
           p + a ((x2_value st - x1_value st) / 36.0)
         else p * 0.5) := by
  unfold physics
  cases w <;> simp only [ne_eq] <;> split_ifs <;>
    simp_all [set_value_fields_eq, set_value_fields_ne]

theorem physics_Theta_skipped (st : HitState α) (w : Option (α × α)) (a : α → α)
    (p : α) (hg : ¬(x1_value st ≠ INVALID_VALUE ∧ x2_value st ≠ INVALID_VALUE)) :
    (physics st w a p).fields SPSDataField.Theta = st.data.fields SPSDataField.Theta := by
  unfold physics
  cases w <;> simp only [ne_eq] <;> split_ifs <;>
    simp_all [set_value_fields_eq, set_value_fields_ne]

theorem physics_Xavg_weighted (st : HitState α) (w0 w1 : α) (a : α → α)
    (p : α) (hg : x1_value st ≠ INVALID_VALUE ∧ x2_value st ≠ INVALID_VALUE) :
    (physics st (some (w0, w1)) a p).fields SPSDataField.Xavg =
      setLast (st.data.fields SPSDataField.Xavg)
        (w0 * x1_value st + w1 * x2_value st) := by
  unfold physics
  simp only [ne_eq]
  split_ifs <;> simp_all [set_value_fields_eq, set_value_fields_ne]

theorem physics_Xavg_no_weights (st : HitState α) (a : α → α)
    (p : α) (hg : x1_value st ≠ INVALID_VALUE ∧ x2_value st ≠ INVALID_VALUE) :
    (physics st none a p).fields SPSDataField.Xavg =
      setLast (st.data.fields SPSDataField.Xavg) INVALID_VALUE := by
  unfold physics
  simp only [ne_eq]
  split_ifs <;> simp_all [set_value_fields_eq, set_value_fields_ne]

theorem physics_Xavg_skipped (st : HitState α) (w : Option (α × α)) (a : α → α)
    (p : α) (hg : ¬(x1_value st ≠ INVALID_VALUE ∧ x2_value st ≠ INVALID_VALUE)) :
    (physics st w a p).fields SPSDataField.Xavg = st.data.fields SPSDataField.Xavg := by
  unfold physics
  cases w <;> simp only [ne_eq] <;> split_ifs <;>
    simp_all [set_value_fields_eq, set_value_fields_ne]

theorem hit_state_rows (d : SPSData α) (ev : List (CompassData α))
    (map : Nat → Option SPSChannelType) :
    (hit_state d ev map).data.rows = d.rows + 1 := by
  unfold hit_state
  rw [foldl_process_rows]
  rfl

theorem hit_state_times (d : SPSData α) (ev : List (CompassData α))
    (map : Nat → Option SPSChannelType) :
    times_of (hit_state d ev map) = capture_times map init_times ev := by
  unfold hit_state
  rw [foldl_process_times]
  rfl

theorem hit_state_dfl (d : SPSData α) (ev : List (CompassData α))
    (map : Nat → Option SPSChannelType) :
    (hit_state d ev map).dfl_time = (capture_times map init_times ev).dfl := by
  rw [← hit_state_times]; rfl

theorem hit_state_dfr (d : SPSData α) (ev : List (CompassData α))
    (map : Nat → Option SPSChannelType) :
    (hit_state d ev map).dfr_time = (capture_times map init_times ev).dfr := by
  rw [← hit_state_times]; rfl

theorem hit_state_dbl (d : SPSData α) (ev : List (CompassData α))
    (map : Nat → Option SPSChannelType) :
    (hit_state d ev map).dbl_time = (capture_times map init_times ev).dbl := by
  rw [← hit_state_times]; rfl

theorem hit_state_dbr (d : SPSData α) (ev : List (CompassData α))
    (map : Nat → Option SPSChannelType) :
    (hit_state d ev map).dbr_time = (capture_times map init_times ev).dbr := by
  rw [← hit_state_times]; rfl

theorem hit_state_length (d : SPSData α) (hAl : Aligned d)
    (ev : List (CompassData α)) (map : Nat → Option SPSChannelType)
    (f : SPSDataField) :
    ((hit_state d ev map).data.fields f).length = d.rows + 1 := by
  unfold hit_state
  rw [foldl_process_length]
  show ((push_defaults { d with rows := d.rows + 1 }).fields f).length = d.rows + 1
  rw [push_defaults_fields_of_aligned d hAl f]
  simp [hAl f]

theorem hit_state_ne_nil (d : SPSData α) (hAl : Aligned d)
    (ev : List (CompassData α)) (map : Nat → Option SPSChannelType)
    (f : SPSDataField) :
    (hit_state d ev map).data.fields f ≠ [] := by
  intro hnil
  have := hit_state_length d hAl ev map f
  rw [hnil] at this
  simp at this

theorem hit_state_frame (d : SPSData α) (hAl : Aligned d)
    (ev : List (CompassData α)) (map : Nat → Option SPSChannelType)
    (f : SPSDataField)
    (hf : ∀ hit ∈ ev, ∀ r, map hit.uuid = some r → f ∉ role_fields r) :
    (hit_state d ev map).data.fields f = d.fields f ++ [INVALID_VALUE] := by
  unfold hit_state
  rw [foldl_process_fields_frame map f ev _ hf]
  exact push_defaults_fields_of_aligned d hAl f

theorem hit_state_append (d : SPSData α) (l1 l2 : List (CompassData α))
    (map : Nat → Option SPSChannelType) :
    hit_state d (l1 ++ l2) map = l2.foldl (process_hit map) (hit_state d l1 map) := by
  unfold hit_state
  rw [List.foldl_append]

theorem hit_state_last_write (d : SPSData α) (hAl : Aligned d)
    (map : Nat → Option SPSChannelType) (l1 l2 : List (CompassData α))
    (hit : CompassData α) (r : SPSChannelType) (fe fs ft : SPSDataField)
    (hm : map hit.uuid = some r) (hr : role_fields r = [fe, fs, ft])
    (hl2 : ∀ h' ∈ l2, map h'.uuid ≠ some r) :
    ((hit_state d (l1 ++ hit :: l2) map).data.fields fe).getLast? = some hit.energy ∧
    ((hit_state d (l1 ++ hit :: l2) map).data.fields fs).getLast? = some hit.energy_short ∧
    ((hit_state d (l1 ++ hit :: l2) map).data.fields ft).getLast? = some hit.timestamp := by
  rw [hit_state_append, List.foldl_cons]
  have hfr : ∀ f, f ∈ role_fields r →
      (l2.foldl (process_hit map) (process_hit map (hit_state d l1 map) hit)).data.fields f =
        (process_hit map (hit_state d l1 map) hit).data.fields f := by
    intro f hf
    apply foldl_process_fields_frame
    intro h' hh' r' hmr' hfr'
    exact hl2 h' hh' (hmr'.trans (by rw [role_fields_inj f r' r hfr' hf]))
  obtain ⟨he, hs, ht⟩ :=
    process_hit_write map (hit_state d l1 map) hit r fe fs ft hm hr
  have hne := hit_state_ne_nil d hAl l1 map
  refine ⟨?_, ?_, ?_⟩
  · rw [hfr fe (by simp [hr]), he, setLast_getLast _ _ (hne fe)]
  · rw [hfr fs (by simp [hr]), hs, setLast_getLast _ _ (hne fs)]
  · rw [hfr ft (by simp [hr]), ht, setLast_getLast _ _ (hne ft)]

theorem append_event_rows (d : SPSData α) (ev : List (CompassData α))
    (map : Nat → Option SPSChannelType) (w : Option (α × α)) (a : α → α) (p : α) :
    (append_event d ev map w a p).rows = d.rows + 1 := by
  unfold append_event
  rw [physics_rows, hit_state_rows]

theorem append_event_length (d : SPSData α) (hAl : Aligned d)
    (ev : List (CompassData α)) (map : Nat → Option SPSChannelType)
    (w : Option (α × α)) (a : α → α) (p : α) (f : SPSDataField) :
    ((append_event d ev map w a p).fields f).length = d.rows + 1 := by
  unfold append_event
  rw [physics_length, hit_state_length d hAl]

theorem append_event_aligned (d : SPSData α) (hAl : Aligned d)
    (ev : List (CompassData α)) (map : Nat → Option SPSChannelType)
    (w : Option (α × α)) (a : α → α) (p : α) :
    Aligned (append_event d ev map w a p) := by
  intro f
  rw [append_event_length d hAl, append_event_rows]

theorem aligned_init : Aligned (init : SPSData α) := fun _ => rfl

theorem process_hit_none (map : Nat → Option SPSChannelType) (st : HitState α)
    (hit : CompassData α) (hm : map hit.uuid = none) :
    process_hit map st hit = st := by
  simp [process_hit, hm]

theorem X1_not_routed : ∀ r : SPSChannelType, SPSDataField.X1 ∉ role_fields r := by
  decide

theorem X2_not_routed : ∀ r : SPSChannelType, SPSDataField.X2 ∉ role_fields r := by
  decide

theorem Theta_not_routed : ∀ r : SPSChannelType, SPSDataField.Theta ∉ role_fields r := by
  decide

theorem Xavg_not_routed : ∀ r : SPSChannelType, SPSDataField.Xavg ∉ role_fields r := by
  decide

theorem role_fields_not_derived : ∀ (r : SPSChannelType) (f : SPSDataField),
    f ∈ role_fields r →
    f ≠ SPSDataField.X1 ∧ f ≠ SPSDataField.X2 ∧
    f ≠ SPSDataField.Theta ∧ f ≠ SPSDataField.Xavg := by
  decide

theorem capture_times_append (map : Nat → Option SPSChannelType) :
    ∀ (l1 l2 : List (CompassData α)) (t : DelayTimes α),
      capture_times map t (l1 ++ l2) = capture_times map (capture_times map t l1) l2
  | [], _, _ => rfl
  | hit :: rest, l2, t => by
      show capture_times map _ (rest ++ l2) = _
      rw [capture_times_append map rest l2]
      rfl

theorem capture_times_dfl_frame (map : Nat → Option SPSChannelType) :
    ∀ (l : List (CompassData α)) (t : DelayTimes α),
      (∀ h' ∈ l, map h'.uuid ≠ some SPSChannelType.DelayFrontLeft) →
      (capture_times map t l).dfl = t.dfl
  | [], _, _ => rfl
  | hit :: rest, t, h => by
      have hnext := fun h' hh' => h h' (List.mem_cons_of_mem hit hh')
      have hhit := h hit (List.mem_cons_self _ _)
      show (capture_times map _ rest).dfl = t.dfl
      rcases hm : map hit.uuid with - | r
      · exact capture_times_dfl_frame map rest t hnext
      · cases r
        case DelayFrontLeft => exact absurd hm hhit
        all_goals exact capture_times_dfl_frame map rest _ hnext

theorem capture_times_cons (map : Nat → Option SPSChannelType)
    (hit : CompassData α) (rest : List (CompassData α)) (t : DelayTimes α) :
    capture_times map t (hit :: rest) =
      capture_times map
        (match map hit.uuid with
         | some SPSChannelType.DelayFrontLeft => { t with dfl := hit.timestamp }
         | some SPSChannelType.DelayFrontRight => { t with dfr := hit.timestamp }
         | some SPSChannelType.DelayBackLeft => { t with dbl := hit.timestamp }
         | some SPSChannelType.DelayBackRight => { t with dbr := hit.timestamp }
         | _ => t) rest := rfl

theorem applyEvents_aligned (arctan : α → α) (pi : α) :
    ∀ (calls : List (EventCall α)) (d : SPSData α), Aligned d →
      Aligned (applyEvents arctan pi d calls) ∧
      (applyEvents arctan pi d calls).rows = d.rows + calls.length
  | [], d, h => ⟨h, rfl⟩
  | c :: cs, d, h => by
      have h1 := append_event_aligned d h c.event c.map c.weights arctan pi
      have ih := applyEvents_aligned arctan pi cs
        (d.append_event c.event c.map c.weights arctan pi) h1
      refine ⟨ih.1, ?_⟩
      show (applyEvents arctan pi _ cs).rows = _
      rw [ih.2, append_event_rows]
      simp [Nat.add_assoc, Nat.add_comm 1 cs.length]

theorem append_event_fields_unwritten (d : SPSData α) (hAl : Aligned d)
    (ev : List (CompassData α)) (map : Nat → Option SPSChannelType)
    (w : Option (α × α)) (a : α → α) (p : α) (f : SPSDataField)
    (hf : ∀ hit ∈ ev, ∀ r, map hit.uuid = some r → f ∉ role_fields r)
    (h1 : f ≠ SPSDataField.X1) (h2 : f ≠ SPSDataField.X2)
    (h3 : f ≠ SPSDataField.Theta) (h4 : f ≠ SPSDataField.Xavg) :
    (append_event d ev map w a p).fields f = d.fields f ++ [INVALID_VALUE] := by
  unfold append_event
  rw [physics_fields_frame _ _ _ _ f h1 h2 h3 h4, hit_state_frame d hAl ev map f hf]

theorem applyEvents_fields_unwritten (arctan : α → α) (pi : α) (f : SPSDataField)
    (h1 : f ≠ SPSDataField.X1) (h2 : f ≠ SPSDataField.X2)
    (h3 : f ≠ SPSDataField.Theta) (h4 : f ≠ SPSDataField.Xavg) :
    ∀ (calls : List (EventCall α)) (d : SPSData α), Aligned d →
      (∀ c ∈ calls, ∀ hit ∈ c.event, ∀ r, c.map hit.uuid = some r → f ∉ role_fields r) →
      (applyEvents arctan pi d calls).fields f =
        d.fields f ++ List.replicate calls.length INVALID_VALUE
  | [], d, _, _ => by simp [applyEvents]
  | c :: cs, d, hAl, hh => by
      show (applyEvents arctan pi (d.append_event c.event c.map c.weights arctan pi) cs).fields f = _
      rw [applyEvents_fields_unwritten arctan pi f h1 h2 h3 h4 cs _
            (append_event_aligned d hAl c.event c.map c.weights arctan pi)
            (fun c' hc' => hh c' (List.mem_cons_of_mem _ hc')),
          append_event_fields_unwritten d hAl c.event c.map c.weights arctan pi f
            (hh c (List.mem_cons_self _ _)) h1 h2 h3 h4]
      simp [List.replicate_succ]

theorem capture_times_dfr_frame (map : Nat → Option SPSChannelType) :
    ∀ (l : List (CompassData α)) (t : DelayTimes α),
      (∀ h' ∈ l, map h'.uuid ≠ some SPSChannelType.DelayFrontRight) →
      (capture_times map t l).dfr = t.dfr
  | [], _, _ => rfl
  | hit :: rest, t, h => by
      have hnext := fun h' hh' => h h' (List.mem_cons_of_mem hit hh')
      have hhit := h hit (List.mem_cons_self _ _)
      show (capture_times map _ rest).dfr = t.dfr
      rcases hm : map hit.uuid with - | r
      · exact capture_times_dfr_frame map rest t hnext
      · cases r
        case DelayFrontRight => exact absurd hm hhit
        all_goals exact capture_times_dfr_frame map rest _ hnext

theorem capture_times_dbl_frame (map : Nat → Option SPSChannelType) :
    ∀ (l : List (CompassData α)) (t : DelayTimes α),
      (∀ h' ∈ l, map h'.uuid ≠ some SPSChannelType.DelayBackLeft) →
      (capture_times map t l).dbl = t.dbl
  | [], _, _ => rfl
  | hit :: rest, t, h => by
      have hnext := fun h' hh' => h h' (List.mem_cons_of_mem hit hh')
      have hhit := h hit (List.mem_cons_self _ _)
      show (capture_times map _ rest).dbl = t.dbl
      rcases hm : map hit.uuid with - | r
      · exact capture_times_dbl_frame map rest t hnext
      · cases r
        case DelayBackLeft => exact absurd hm hhit
        all_goals exact capture_times_dbl_frame map rest _ hnext

theorem capture_times_dbr_frame (map : Nat → Option SPSChannelType) :
    ∀ (l : List (CompassData α)) (t : DelayTimes α),
      (∀ h' ∈ l, map h'.uuid ≠ some SPSChannelType.DelayBackRight) →
      (capture_times map t l).dbr = t.dbr
  | [], _, _ => rfl
  | hit :: rest, t, h => by
      have hnext := fun h' hh' => h h' (List.mem_cons_of_mem hit hh')
      have hhit := h hit (List.mem_cons_self _ _)
      show (capture_times map _ rest).dbr = t.dbr
      rcases hm : map hit.uuid with - | r
      · exact capture_times_dbr_frame map rest t hnext
      · cases r
        case DelayBackRight => exact absurd hm hhit
        all_goals exact capture_times_dbr_frame map rest _ hnext

theorem hit_state_dfl_last (d : SPSData α) (map : Nat → Option SPSChannelType)
    (l1 l2 : List (CompassData α)) (h : CompassData α)
    (hm : map h.uuid = some SPSChannelType.DelayFrontLeft)
    (hl2 : ∀ h' ∈ l2, map h'.uuid ≠ some SPSChannelType.DelayFrontLeft) :
    (hit_state d (l1 ++ h :: l2) map).dfl_time = h.timestamp := by
  rw [hit_state_dfl, capture_times_append map l1 (h :: l2) init_times,
      capture_times_cons, hm, capture_times_dfl_frame map l2 _ hl2]

theorem hit_state_dfr_last (d : SPSData α) (map : Nat → Option SPSChannelType)
    (l1 l2 : List (CompassData α)) (h : CompassData α)
    (hm : map h.uuid = some SPSChannelType.DelayFrontRight)
    (hl2 : ∀ h' ∈ l2, map h'.uuid ≠ some SPSChannelType.DelayFrontRight) :
    (hit_state d (l1 ++ h :: l2) map).dfr_time = h.timestamp := by
  rw [hit_state_dfr, capture_times_append map l1 (h :: l2) init_times,
      capture_times_cons, hm, capture_times_dfr_frame map l2 _ hl2]

theorem hit_state_dbl_last (d : SPSData α) (map : Nat → Option SPSChannelType)
    (l1 l2 : List (CompassData α)) (h : CompassData α)
    (hm : map h.uuid = some SPSChannelType.DelayBackLeft)
    (hl2 : ∀ h' ∈ l2, map h'.uuid ≠ some SPSChannelType.DelayBackLeft) :
    (hit_state d (l1 ++ h :: l2) map).dbl_time = h.timestamp := by
  rw [hit_state_dbl, capture_times_append map l1 (h :: l2) init_times,
      capture_times_cons, hm, capture_times_dbl_frame map l2 _ hl2]

theorem hit_state_dbr_last (d : SPSData α) (map : Nat → Option SPSChannelType)
    (l1 l2 : List (CompassData α)) (h : CompassData α)
    (hm : map h.uuid = some SPSChannelType.DelayBackRight)
    (hl2 : ∀ h' ∈ l2, map h'.uuid ≠ some SPSChannelType.DelayBackRight) :
    (hit_state d (l1 ++ h :: l2) map).dbr_time = h.timestamp := by
  rw [hit_state_dbr, capture_times_append map l1 (h :: l2) init_times,
      capture_times_cons, hm, capture_times_dbr_frame map l2 _ hl2]

theorem append_event_front_suppressed (d : SPSData α) (hAl : Aligned d)
    (ev : List (CompassData α)) (map : Nat → Option SPSChannelType)
    (w : Option (α × α)) (a : α → α) (p : α)
    (hfr : (hit_state d ev map).dfr_time = INVALID_VALUE ∨
           (hit_state d ev map).dfl_time = INVALID_VALUE) :
    ((append_event d ev map w a p).fields SPSDataField.X1).getLast? =
      some INVALID_VALUE ∧
    ((append_event d ev map w a p).fields SPSDataField.Theta).getLast? =
      some INVALID_VALUE ∧
    ((append_event d ev map w a p).fields SPSDataField.Xavg).getLast? =
      some INVALID_VALUE := by
  have hgx1 : ¬((hit_state d ev map).dfr_time ≠ INVALID_VALUE ∧
      (hit_state d ev map).dfl_time ≠ INVALID_VALUE) := by tauto
  have hx1 : x1_value (hit_state d ev map) = INVALID_VALUE := by
    unfold x1_value
    rw [if_neg hgx1]
  have hg : ¬(x1_value (hit_state d ev map) ≠ INVALID_VALUE ∧
      x2_value (hit_state d ev map) ≠ INVALID_VALUE) := fun hc => hc.1 hx1
  have hX1frame : (hit_state d ev map).data.fields SPSDataField.X1 =
      d.fields SPSDataField.X1 ++ [INVALID_VALUE] :=
    hit_state_frame d hAl ev map _ (fun hit _ r _ => X1_not_routed r)
  have hThframe : (hit_state d ev map).data.fields SPSDataField.Theta =
      d.fields SPSDataField.Theta ++ [INVALID_VALUE] :=
    hit_state_frame d hAl ev map _ (fun hit _ r _ => Theta_not_routed r)
  have hXaframe : (hit_state d ev map).data.fields SPSDataField.Xavg =
      d.fields SPSDataField.Xavg ++ [INVALID_VALUE] :=
    hit_state_frame d hAl ev map _ (fun hit _ r _ => Xavg_not_routed r)
  refine ⟨?_, ?_, ?_⟩
  · show ((physics (hit_state d ev map) w a p).fields SPSDataField.X1).getLast? = _
    rw [physics_X1_skipped _ _ _ _ hgx1, hX1frame, List.getLast?_concat]
  · show ((physics (hit_state d ev map) w a p).fields SPSDataField.Theta).getLast? = _
    rw [physics_Theta_skipped _ _ _ _ hg, hThframe, List.getLast?_concat]
  · show ((physics (hit_state d ev map) w a p).fields SPSDataField.Xavg).getLast? = _
    rw [physics_Xavg_skipped _ _ _ _ hg, hXaframe, List.getLast?_concat]

theorem append_event_back_suppressed (d : SPSData α) (hAl : Aligned d)
    (ev : List (CompassData α)) (map : Nat → Option SPSChannelType)
    (w : Option (α × α)) (a : α → α) (p : α)
    (hbk : (hit_state d ev map).dbr_time = INVALID_VALUE ∨
           (hit_state d ev map).dbl_time = INVALID_VALUE) :
    ((append_event d ev map w a p).fields SPSDataField.X2).getLast? =
      some INVALID_VALUE ∧
    ((append_event d ev map w a p).fields SPSDataField.Theta).getLast? =
      some INVALID_VALUE ∧
    ((append_event d ev map w a p).fields SPSDataField.Xavg).getLast? =
      some INVALID_VALUE := by
  have hgx2 : ¬((hit_state d ev map).dbr_time ≠ INVALID_VALUE ∧
      (hit_state d ev map).dbl_time ≠ INVALID_VALUE) := by tauto
  have hx2 : x2_value (hit_state d ev map) = INVALID_VALUE := by
    unfold x2_value
    rw [if_neg hgx2]
  have hg : ¬(x1_value (hit_state d ev map) ≠ INVALID_VALUE ∧
      x2_value (hit_state d ev map) ≠ INVALID_VALUE) := fun hc => hc.2 hx2
  have hX2frame : (hit_state d ev map).data.fields SPSDataField.X2 =
      d.fields SPSDataField.X2 ++ [INVALID_VALUE] :=
    hit_state_frame d hAl ev map _ (fun hit _ r _ => X2_not_routed r)
  have hThframe : (hit_state d ev map).data.fields SPSDataField.Theta =
      d.fields SPSDataField.Theta ++ [INVALID_VALUE] :=
    hit_state_frame d hAl ev map _ (fun hit _ r _ => Theta_not_routed r)
  have hXaframe : (hit_state d ev map).data.fields SPSDataField.Xavg =
      d.fields SPSDataField.Xavg ++ [INVALID_VALUE] :=
    hit_state_frame d hAl ev map _ (fun hit _ r _ => Xavg_not_routed r)
  refine ⟨?_, ?_, ?_⟩
  · show ((physics (hit_state d ev map) w a p).fields SPSDataField.X2).getLast? = _
    rw [physics_X2_skipped _ _ _ _ hgx2, hX2frame, List.getLast?_concat]
  · show ((physics (hit_state d ev map) w a p).fields SPSDataField.Theta).getLast? = _
    rw [physics_Theta_skipped _ _ _ _ hg, hThframe, List.getLast?_concat]
  · show ((physics (hit_state d ev map) w a p).fields SPSDataField.Xavg).getLast? = _
    rw [physics_Xavg_skipped _ _ _ _ hg, hXaframe, List.getLast?_concat]

end SPSData

/-! ### The claims -/

/-- Claim C1: starting from a freshly constructed `SPSData` (every field present
with an empty column, `rows = 0`), after every call to `append_event` — for
any events, any channel-map lookups, and any weights option — every column
in the store has length exactly `rows`, and `rows` equals the number of
`append_event` calls made so far. -/
theorem claim_C1_row_alignment (α : Type) [LinearOrderedField α]
    (arctan : α → α) (pi : α) (calls : List (EventCall α)) :
    (∀ f : SPSDataField,
      ((applyEvents arctan pi SPSData.init calls).fields f).length =
        (applyEvents arctan pi SPSData.init calls).rows) ∧
    (applyEvents arctan pi SPSData.init calls).rows = calls.length := by
  have h := SPSData.applyEvents_aligned arctan pi calls SPSData.init SPSData.aligned_init
  refine ⟨h.1, ?_⟩
  rw [h.2]
  simp [SPSData.init]

/-- Claim C2: whenever both front delay-line timestamps are captured (non-sentinel),
`append_event` writes the current row's X1 value as
(frontLeft − frontRight) × 0.5 × (1/2.1); symmetrically for X2 with
(backLeft − backRight) × 0.5 × (1/1.98); and each estimate is written only
when both of its inputs are non-sentinel (otherwise the row keeps the
sentinel). -/
theorem claim_C2_position_estimates (α : Type) [LinearOrderedField α]
    (d : SPSData α) (hAl : Aligned d) (event : List (CompassData α))
    (map : Nat → Option SPSChannelType) (weights : Option (α × α))
    (arctan : α → α) (pi : α) (t : DelayTimes α)
    (ht : capture_times map init_times event = t) :
    ((t.dfl ≠ INVALID_VALUE ∧ t.dfr ≠ INVALID_VALUE) →
      ((SPSData.append_event d event map weights arctan pi).fields
          SPSDataField.X1).getLast? =
        some ((t.dfl - t.dfr) * 0.5 * (1 / 2.1))) ∧
    ((t.dfl = INVALID_VALUE ∨ t.dfr = INVALID_VALUE) →
      ((SPSData.append_event d event map weights arctan pi).fields
          SPSDataField.X1).getLast? = some INVALID_VALUE) ∧
    ((t.dbl ≠ INVALID_VALUE ∧ t.dbr ≠ INVALID_VALUE) →
      ((SPSData.append_event d event map weights arctan pi).fields
          SPSDataField.X2).getLast? =
        some ((t.dbl - t.dbr) * 0.5 * (1 / 1.98))) ∧
    ((t.dbl = INVALID_VALUE ∨ t.dbr = INVALID_VALUE) →
      ((SPSData.append_event d event map weights arctan pi).fields
          SPSDataField.X2).getLast? = some INVALID_VALUE) := by
  have hdfl := SPSData.hit_state_dfl d event map
  have hdfr := SPSData.hit_state_dfr d event map
  have hdbl := SPSData.hit_state_dbl d event map
  have hdbr := SPSData.hit_state_dbr d event map
  rw [ht] at hdfl hdfr hdbl hdbr
  have hX1frame : (SPSData.hit_state d event map).data.fields SPSDataField.X1 =
      d.fields SPSDataField.X1 ++ [INVALID_VALUE] :=
    SPSData.hit_state_frame d hAl event map _
      (fun hit _ r _ => SPSData.X1_not_routed r)
  have hX2frame : (SPSData.hit_state d event map).data.fields SPSDataField.X2 =
      d.fields SPSDataField.X2 ++ [INVALID_VALUE] :=
    SPSData.hit_state_frame d hAl event map _
      (fun hit _ r _ => SPSData.X2_not_routed r)
  refine ⟨?_, ?_, ?_, ?_⟩
  · intro hfront
    show ((SPSData.physics (SPSData.hit_state d event map) weights arctan pi).fields
        SPSDataField.X1).getLast? = _
    rw [SPSData.physics_X1_written _ _ _ _
          ⟨by rw [hdfr]; exact hfront.2, by rw [hdfl]; exact hfront.1⟩,
        hX1frame, SPSData.setLast_append, List.getLast?_concat, hdfl, hdfr]
    congr 1
    ring
  · intro hmiss
    show ((SPSData.physics (SPSData.hit_state d event map) weights arctan pi).fields
        SPSDataField.X1).getLast? = _
    rw [SPSData.physics_X1_skipped _ _ _ _ (by rw [hdfr, hdfl]; tauto),
        hX1frame, List.getLast?_concat]
  · intro hback
    show ((SPSData.physics (SPSData.hit_state d event map) weights arctan pi).fields
        SPSDataField.X2).getLast? = _
    rw [SPSData.physics_X2_written _ _ _ _
          ⟨by rw [hdbr]; exact hback.2, by rw [hdbl]; exact hback.1⟩,
        hX2frame, SPSData.setLast_append, List.getLast?_concat, hdbl, hdbr]
    congr 1
    ring
  · intro hmiss
    show ((SPSData.physics (SPSData.hit_state d event map) weights arctan pi).fields
        SPSDataField.X2).getLast? = _
    rw [SPSData.physics_X2_skipped _ _ _ _ (by rw [hdbr, hdbl]; tauto),
        hX2frame, List.getLast?_concat]

/-- Witness for C2: on a concrete event carrying front timestamps 100 and 80,
the X1 entry of the new row is (100 − 80) × 0.5 × (1/2.1). -/
theorem claim_C2_position_estimates_witness :
    ((SPSData.append_event (SPSData.init : SPSData ℚ)
        [⟨0, 1, 2, 100⟩, ⟨1, 3, 4, 80⟩, ⟨2, 5, 6, 50⟩, ⟨3, 7, 8, 60⟩]
        testMap none id 0).fields SPSDataField.X1).getLast? =
      some (((100 : ℚ) - 80) * 0.5 * (1 / 2.1)) :=
  (claim_C2_position_estimates ℚ SPSData.init SPSData.aligned_init
      [⟨0, 1, 2, 100⟩, ⟨1, 3, 4, 80⟩, ⟨2, 5, 6, 50⟩, ⟨3, 7, 8, 60⟩]
      testMap none id 0 ⟨100, 80, 50, 60⟩ (by decide)).1 (by decide)

/-- Claim C3: when both position estimates are computed (both channel pairs
captured and neither estimate equals the sentinel, which is the source's
guard for the angle computation), with diff = estimate2 − estimate1,
`append_event` writes the current row's Theta as atan(diff/36) when
diff > 0, as π + atan(diff/36) when diff < 0, and as π/2 when diff = 0. -/
theorem claim_C3_theta (d : SPSData ℝ) (hAl : Aligned d)
    (event : List (CompassData ℝ)) (map : Nat → Option SPSChannelType)
    (weights : Option (ℝ × ℝ)) (t : DelayTimes ℝ)
    (ht : capture_times map init_times event = t)
    (hfront : t.dfl ≠ INVALID_VALUE ∧ t.dfr ≠ INVALID_VALUE)
    (hback : t.dbl ≠ INVALID_VALUE ∧ t.dbr ≠ INVALID_VALUE)
    (e1 e2 : ℝ)
    (he1 : e1 = (t.dfl - t.dfr) * 0.5 * (1 / 2.1))
    (he2 : e2 = (t.dbl - t.dbr) * 0.5 * (1 / 1.98))
    (hv1 : e1 ≠ INVALID_VALUE) (hv2 : e2 ≠ INVALID_VALUE) :
    (e2 - e1 > 0 →
      ((SPSData.append_event d event map weights Real.arctan Real.pi).fields
          SPSDataField.Theta).getLast? = some (Real.arctan ((e2 - e1) / 36))) ∧
    (e2 - e1 < 0 →
      ((SPSData.append_event d event map weights Real.arctan Real.pi).fields
          SPSDataField.Theta).getLast? =
        some (Real.pi + Real.arctan ((e2 - e1) / 36))) ∧
    (e2 - e1 = 0 →
      ((SPSData.append_event d event map weights Real.arctan Real.pi).fields
          SPSDataField.Theta).getLast? = some (Real.pi / 2)) := by
  have hdfl := SPSData.hit_state_dfl d event map
  have hdfr := SPSData.hit_state_dfr d event map
  have hdbl := SPSData.hit_state_dbl d event map
  have hdbr := SPSData.hit_state_dbr d event map
  rw [ht] at hdfl hdfr hdbl hdbr
  have hx1 : SPSData.x1_value (SPSData.hit_state d event map) = e1 := by
    unfold SPSData.x1_value
    rw [hdfr, hdfl, if_pos ⟨hfront.2, hfront.1⟩, he1]
    ring
  have hx2 : SPSData.x2_value (SPSData.hit_state d event map) = e2 := by
    unfold SPSData.x2_value
    rw [hdbr, hdbl, if_pos ⟨hback.2, hback.1⟩, he2]
    ring
  have hg : SPSData.x1_value (SPSData.hit_state d event map) ≠ INVALID_VALUE ∧
      SPSData.x2_value (SPSData.hit_state d event map) ≠ INVALID_VALUE := by
    rw [hx1, hx2]; exact ⟨hv1, hv2⟩
  have hframe : (SPSData.hit_state d event map).data.fields SPSDataField.Theta =
      d.fields SPSDataField.Theta ++ [INVALID_VALUE] :=
    SPSData.hit_state_frame d hAl event map _
      (fun hit _ r _ => SPSData.Theta_not_routed r)
  have hmain : ((SPSData.append_event d event map weights Real.arctan Real.pi).fields
      SPSDataField.Theta).getLast? =
      some (if e2 - e1 > 0 then Real.arctan ((e2 - e1) / 36.0)
            else if e2 - e1 < 0 then Real.pi + Real.arctan ((e2 - e1) / 36.0)
            else Real.pi * 0.5) := by
    show ((SPSData.physics (SPSData.hit_state d event map) weights Real.arctan
        Real.pi).fields SPSDataField.Theta).getLast? = _
    rw [SPSData.physics_Theta_written _ _ _ _ hg, hx1, hx2, hframe,
        SPSData.setLast_append, List.getLast?_concat]
  refine ⟨?_, ?_, ?_⟩
  · intro hpos
    rw [hmain, if_pos hpos]
    norm_num
  · intro hneg
    rw [hmain, if_neg (by linarith), if_pos hneg]
    norm_num
  · intro hzero
    rw [hmain, if_neg (by rw [hzero]; exact lt_irrefl 0),
        if_neg (by rw [hzero]; exact lt_irrefl 0)]
    norm_num
    ring

/-- Witness for C3: on a concrete event with front timestamps 100/80 and back
timestamps 50/60, diff < 0 and Theta is π + atan(diff/36). -/
theorem claim_C3_theta_witness :
    ((SPSData.append_event (SPSData.init : SPSData ℝ)
        [⟨0, 1, 2, 100⟩, ⟨1, 3, 4, 80⟩, ⟨2, 5, 6, 50⟩, ⟨3, 7, 8, 60⟩]
        testMap none Real.arctan Real.pi).fields SPSDataField.Theta).getLast? =
      some (Real.pi + Real.arctan
        ((((50 : ℝ) - 60) * 0.5 * (1 / 1.98) -
          ((100 : ℝ) - 80) * 0.5 * (1 / 2.1)) / 36)) :=
  (claim_C3_theta SPSData.init SPSData.aligned_init
      [⟨0, 1, 2, 100⟩, ⟨1, 3, 4, 80⟩, ⟨2, 5, 6, 50⟩, ⟨3, 7, 8, 60⟩]
      testMap none ⟨100, 80, 50, 60⟩ rfl
      (by norm_num [INVALID_VALUE]) (by norm_num [INVALID_VALUE])
      (((100 : ℝ) - 80) * 0.5 * (1 / 2.1)) (((50 : ℝ) - 60) * 0.5 * (1 / 1.98))
      rfl rfl (by norm_num [INVALID_VALUE]) (by norm_num [INVALID_VALUE])).2.1
    (by norm_num)

/-- Claim C4: when both position estimates are computed (same guard as the angle),
supplying weights (w0, w1) makes `append_event` write the current row's Xavg
as w0·estimate1 + w1·estimate2, while absent weights make it explicitly
write the sentinel −1×10⁶ to Xavg for that row. -/
theorem claim_C4_xavg (α : Type) [LinearOrderedField α] (d : SPSData α)
    (hAl : Aligned d) (event : List (CompassData α))
    (map : Nat → Option SPSChannelType) (arctan : α → α) (pi : α)
    (t : DelayTimes α) (ht : capture_times map init_times event = t)
    (hfront : t.dfl ≠ INVALID_VALUE ∧ t.dfr ≠ INVALID_VALUE)
    (hback : t.dbl ≠ INVALID_VALUE ∧ t.dbr ≠ INVALID_VALUE)
    (e1 e2 : α)
    (he1 : e1 = (t.dfl - t.dfr) * 0.5 * (1 / 2.1))
    (he2 : e2 = (t.dbl - t.dbr) * 0.5 * (1 / 1.98))
    (hv1 : e1 ≠ INVALID_VALUE) (hv2 : e2 ≠ INVALID_VALUE) :
    (∀ w0 w1 : α,
      ((SPSData.append_event d event map (some (w0, w1)) arctan pi).fields
          SPSDataField.Xavg).getLast? = some (w0 * e1 + w1 * e2)) ∧
    ((SPSData.append_event d event map none arctan pi).fields
        SPSDataField.Xavg).getLast? = some INVALID_VALUE := by
  have hdfl := SPSData.hit_state_dfl d event map
  have hdfr := SPSData.hit_state_dfr d event map
  have hdbl := SPSData.hit_state_dbl d event map
  have hdbr := SPSData.hit_state_dbr d event map
  rw [ht] at hdfl hdfr hdbl hdbr
  have hx1 : SPSData.x1_value (SPSData.hit_state d event map) = e1 := by
    unfold SPSData.x1_value
    rw [hdfr, hdfl, if_pos ⟨hfront.2, hfront.1⟩, he1]
    ring
  have hx2 : SPSData.x2_value (SPSData.hit_state d event map) = e2 := by
    unfold SPSData.x2_value
    rw [hdbr, hdbl, if_pos ⟨hback.2, hback.1⟩, he2]
    ring
  have hg : SPSData.x1_value (SPSData.hit_state d event map) ≠ INVALID_VALUE ∧
      SPSData.x2_value (SPSData.hit_state d event map) ≠ INVALID_VALUE := by
    rw [hx1, hx2]; exact ⟨hv1, hv2⟩
  have hframe : (SPSData.hit_state d event map).data.fields SPSDataField.Xavg =
      d.fields SPSDataField.Xavg ++ [INVALID_VALUE] :=
    SPSData.hit_state_frame d hAl event map _
      (fun hit _ r _ => SPSData.Xavg_not_routed r)
  constructor
  · intro w0 w1
    show ((SPSData.physics (SPSData.hit_state d event map) (some (w0, w1)) arctan
        pi).fields SPSDataField.Xavg).getLast? = _
    rw [SPSData.physics_Xavg_weighted _ _ _ _ _ hg, hx1, hx2, hframe,
        SPSData.setLast_append, List.getLast?_concat]
  · show ((SPSData.physics (SPSData.hit_state d event map) none arctan
        pi).fields SPSDataField.Xavg).getLast? = _
    rw [SPSData.physics_Xavg_no_weights _ _ _ hg, hframe,
        SPSData.setLast_append, List.getLast?_concat]

/-- Witness for C4: on a concrete event, weights (0.5, 0.5) average the two
estimates, and no weights writes the sentinel. -/
theorem claim_C4_xavg_witness :
    ((SPSData.append_event (SPSData.init : SPSData ℚ)
        [⟨0, 1, 2, 100⟩, ⟨1, 3, 4, 80⟩, ⟨2, 5, 6, 50⟩, ⟨3, 7, 8, 60⟩]
        testMap (some (0.5, 0.5)) id 0).fields SPSDataField.Xavg).getLast? =
      some ((0.5 : ℚ) * (((100 : ℚ) - 80) * 0.5 * (1 / 2.1)) +
            (0.5 : ℚ) * (((50 : ℚ) - 60) * 0.5 * (1 / 1.98))) ∧
    ((SPSData.append_event (SPSData.init : SPSData ℚ)
        [⟨0, 1, 2, 100⟩, ⟨1, 3, 4, 80⟩, ⟨2, 5, 6, 50⟩, ⟨3, 7, 8, 60⟩]
        testMap none id 0).fields SPSDataField.Xavg).getLast? =
      some INVALID_VALUE := by
  have h := claim_C4_xavg ℚ SPSData.init SPSData.aligned_init
    [⟨0, 1, 2, 100⟩, ⟨1, 3, 4, 80⟩, ⟨2, 5, 6, 50⟩, ⟨3, 7, 8, 60⟩]
    testMap id 0 ⟨100, 80, 50, 60⟩ (by decide) (by decide) (by decide)
    (((100 : ℚ) - 80) * 0.5 * (1 / 2.1)) (((50 : ℚ) - 60) * 0.5 * (1 / 1.98))
    rfl rfl (by norm_num [INVALID_VALUE]) (by norm_num [INVALID_VALUE])
  exact ⟨h.1 0.5 0.5, h.2⟩

/-- Claim C7: when at least one position estimate is not computed because its
channel pair is incomplete, the current row's Theta and Xavg entries stay at
the sentinel pushed by the pre-row initialization; and a complete front pair
with an incomplete back pair additionally leaves X2 at the sentinel. -/
theorem claim_C7_missing_pair (α : Type) [LinearOrderedField α]
    (d : SPSData α) (hAl : Aligned d) (event : List (CompassData α))
    (map : Nat → Option SPSChannelType) (weights : Option (α × α))
    (arctan : α → α) (pi : α) (t : DelayTimes α)
    (ht : capture_times map init_times event = t)
    (hmiss : (t.dfl = INVALID_VALUE ∨ t.dfr = INVALID_VALUE) ∨
             (t.dbl = INVALID_VALUE ∨ t.dbr = INVALID_VALUE)) :
    ((SPSData.append_event d event map weights arctan pi).fields
        SPSDataField.Theta).getLast? = some INVALID_VALUE ∧
    ((SPSData.append_event d event map weights arctan pi).fields
        SPSDataField.Xavg).getLast? = some INVALID_VALUE ∧
    ((t.dbl = INVALID_VALUE ∨ t.dbr = INVALID_VALUE) →
      ((SPSData.append_event d event map weights arctan pi).fields
          SPSDataField.X2).getLast? = some INVALID_VALUE) := by
  have hdfl := SPSData.hit_state_dfl d event map
  have hdfr := SPSData.hit_state_dfr d event map
  have hdbl := SPSData.hit_state_dbl d event map
  have hdbr := SPSData.hit_state_dbr d event map
  rw [ht] at hdfl hdfr hdbl hdbr
  have hg : ¬(SPSData.x1_value (SPSData.hit_state d event map) ≠ INVALID_VALUE ∧
      SPSData.x2_value (SPSData.hit_state d event map) ≠ INVALID_VALUE) := by
    rcases hmiss with hfm | hbm
    · intro hc
      apply hc.1
      unfold SPSData.x1_value
      rw [hdfr, hdfl, if_neg (by tauto)]
    · intro hc
      apply hc.2
      unfold SPSData.x2_value
      rw [hdbr, hdbl, if_neg (by tauto)]
  have hThframe : (SPSData.hit_state d event map).data.fields SPSDataField.Theta =
      d.fields SPSDataField.Theta ++ [INVALID_VALUE] :=
    SPSData.hit_state_frame d hAl event map _
      (fun hit _ r _ => SPSData.Theta_not_routed r)
  have hXaframe : (SPSData.hit_state d event map).data.fields SPSDataField.Xavg =
      d.fields SPSDataField.Xavg ++ [INVALID_VALUE] :=
    SPSData.hit_state_frame d hAl event map _
      (fun hit _ r _ => SPSData.Xavg_not_routed r)
  have hX2frame : (SPSData.hit_state d event map).data.fields SPSDataField.X2 =
      d.fields SPSDataField.X2 ++ [INVALID_VALUE] :=
    SPSData.hit_state_frame d hAl event map _
      (fun hit _ r _ => SPSData.X2_not_routed r)
  refine ⟨?_, ?_, ?_⟩
  · show ((SPSData.physics (SPSData.hit_state d event map) weights arctan
        pi).fields SPSDataField.Theta).getLast? = _
    rw [SPSData.physics_Theta_skipped _ _ _ _ hg, hThframe, List.getLast?_concat]
  · show ((SPSData.physics (SPSData.hit_state d event map) weights arctan
        pi).fields SPSDataField.Xavg).getLast? = _
    rw [SPSData.physics_Xavg_skipped _ _ _ _ hg, hXaframe, List.getLast?_concat]
  · intro hbm
    show ((SPSData.physics (SPSData.hit_state d event map) weights arctan
        pi).fields SPSDataField.X2).getLast? = _
    rw [SPSData.physics_X2_skipped _ _ _ _ (by rw [hdbr, hdbl]; tauto),
        hX2frame, List.getLast?_concat]

/-- Witness for C7: a concrete event carrying only the front delay-line pair
leaves Theta, Xavg and X2 at the sentinel. -/
theorem claim_C7_missing_pair_witness :
    ((SPSData.append_event (SPSData.init : SPSData ℚ)
        [⟨0, 1, 2, 100⟩, ⟨1, 3, 4, 80⟩] testMap none id 0).fields
        SPSDataField.Theta).getLast? = some INVALID_VALUE ∧
    ((SPSData.append_event (SPSData.init : SPSData ℚ)
        [⟨0, 1, 2, 100⟩, ⟨1, 3, 4, 80⟩] testMap none id 0).fields
        SPSDataField.Xavg).getLast? = some INVALID_VALUE ∧
    ((SPSData.append_event (SPSData.init : SPSData ℚ)
        [⟨0, 1, 2, 100⟩, ⟨1, 3, 4, 80⟩] testMap none id 0).fields
        SPSDataField.X2).getLast? = some INVALID_VALUE := by
  have h := claim_C7_missing_pair ℚ SPSData.init SPSData.aligned_init
    [⟨0, 1, 2, 100⟩, ⟨1, 3, 4, 80⟩] testMap none id 0
    ⟨100, 80, INVALID_VALUE, INVALID_VALUE⟩ rfl (Or.inr (Or.inl rfl))
  exact ⟨h.1, h.2.1, h.2.2 (Or.inl rfl)⟩

/-- Claim C6: a hit whose channel identity resolves to no role never mutates any
column: `append_event` on an event containing such a hit produces the same
builder state as `append_event` on the event with that hit removed. -/
theorem claim_C6_unmapped_skip (α : Type) [LinearOrderedField α]
    (d : SPSData α) (l1 l2 : List (CompassData α)) (h : CompassData α)
    (map : Nat → Option SPSChannelType) (weights : Option (α × α))
    (arctan : α → α) (pi : α) (hm : map h.uuid = none) :
    SPSData.append_event d (l1 ++ h :: l2) map weights arctan pi =
      SPSData.append_event d (l1 ++ l2) map weights arctan pi := by
  unfold SPSData.append_event
  have : SPSData.hit_state d (l1 ++ h :: l2) map = SPSData.hit_state d (l1 ++ l2) map := by
    unfold SPSData.hit_state
    rw [List.foldl_append, List.foldl_append, List.foldl_cons,
        SPSData.process_hit_none map _ h hm]
  rw [this]

/-- Witness for C6: dropping a concrete unmapped hit (identity 99) from a
concrete event leaves the resulting state unchanged. -/
theorem claim_C6_unmapped_skip_witness :
    SPSData.append_event (SPSData.init : SPSData ℚ)
        ([] ++ (⟨99, 1, 2, 3⟩ : CompassData ℚ) :: [⟨4, 5, 6, 7⟩]) testMap none id 0 =
      SPSData.append_event SPSData.init ([] ++ [⟨4, 5, 6, 7⟩]) testMap none id 0 :=
  claim_C6_unmapped_skip ℚ SPSData.init [] [⟨4, 5, 6, 7⟩] ⟨99, 1, 2, 3⟩
    testMap none id 0 (by decide)

/-- Claim C5: an event containing two hits resolving to the same role, with
energies e1 then e2 in event order (and no later hit of that role), leaves
that role's energy column's last entry equal to the second hit's energy —
the second hit silently overwrites the first — and likewise the short-gate
and timestamp columns hold the second hit's values. -/
theorem claim_C5_last_hit_wins (α : Type) [LinearOrderedField α]
    (d : SPSData α) (hAl : Aligned d) (map : Nat → Option SPSChannelType)
    (weights : Option (α × α)) (arctan : α → α) (pi : α)
    (l1 l2 l3 : List (CompassData α)) (h1 h2 : CompassData α)
    (r : SPSChannelType) (fe fs ft : SPSDataField)
    (hr : role_fields r = [fe, fs, ft])
    (hm1 : map h1.uuid = some r) (hm2 : map h2.uuid = some r)
    (hl3 : ∀ h' ∈ l3, map h'.uuid ≠ some r) :
    ((SPSData.append_event d (l1 ++ h1 :: l2 ++ h2 :: l3) map weights arctan
        pi).fields fe).getLast? = some h2.energy ∧
    ((SPSData.append_event d (l1 ++ h1 :: l2 ++ h2 :: l3) map weights arctan
        pi).fields fs).getLast? = some h2.energy_short ∧
    ((SPSData.append_event d (l1 ++ h1 :: l2 ++ h2 :: l3) map weights arctan
        pi).fields ft).getLast? = some h2.timestamp := by
  have hassoc : l1 ++ h1 :: l2 ++ h2 :: l3 = (l1 ++ h1 :: l2) ++ h2 :: l3 := by
    simp
  rw [hassoc]
  obtain ⟨he, hs, htm⟩ := SPSData.hit_state_last_write d hAl map
    (l1 ++ h1 :: l2) l3 h2 r fe fs ft hm2 hr hl3
  obtain ⟨hfe1, hfe2, hfe3, hfe4⟩ :=
    SPSData.role_fields_not_derived r fe (by simp [hr])
  obtain ⟨hfs1, hfs2, hfs3, hfs4⟩ :=
    SPSData.role_fields_not_derived r fs (by simp [hr])
  obtain ⟨hft1, hft2, hft3, hft4⟩ :=
    SPSData.role_fields_not_derived r ft (by simp [hr])
  refine ⟨?_, ?_, ?_⟩
  · show ((SPSData.physics (SPSData.hit_state d ((l1 ++ h1 :: l2) ++ h2 :: l3) map)
        weights arctan pi).fields fe).getLast? = _
    rw [SPSData.physics_fields_frame _ _ _ _ _ hfe1 hfe2 hfe3 hfe4]
    exact he
  · show ((SPSData.physics (SPSData.hit_state d ((l1 ++ h1 :: l2) ++ h2 :: l3) map)
        weights arctan pi).fields fs).getLast? = _
    rw [SPSData.physics_fields_frame _ _ _ _ _ hfs1 hfs2 hfs3 hfs4]
    exact hs
  · show ((SPSData.physics (SPSData.hit_state d ((l1 ++ h1 :: l2) ++ h2 :: l3) map)
        weights arctan pi).fields ft).getLast? = _
    rw [SPSData.physics_fields_frame _ _ _ _ _ hft1 hft2 hft3 hft4]
    exact htm

/-- Witness for C5: two concrete ScintLeft hits with energies 1 then 10; the
row keeps the second hit's readings. -/
theorem claim_C5_last_hit_wins_witness :
    ((SPSData.append_event (SPSData.init : SPSData ℚ)
        ([] ++ (⟨4, 1, 2, 3⟩ : CompassData ℚ) :: [] ++ (⟨4, 10, 20, 30⟩ : CompassData ℚ) :: [])
        testMap none id 0).fields SPSDataField.ScintLeftEnergy).getLast? =
      some 10 ∧
    ((SPSData.append_event (SPSData.init : SPSData ℚ)
        ([] ++ (⟨4, 1, 2, 3⟩ : CompassData ℚ) :: [] ++ (⟨4, 10, 20, 30⟩ : CompassData ℚ) :: [])
        testMap none id 0).fields SPSDataField.ScintLeftShort).getLast? =
      some 20 ∧
    ((SPSData.append_event (SPSData.init : SPSData ℚ)
        ([] ++ (⟨4, 1, 2, 3⟩ : CompassData ℚ) :: [] ++ (⟨4, 10, 20, 30⟩ : CompassData ℚ) :: [])
        testMap none id 0).fields SPSDataField.ScintLeftTime).getLast? =
      some 30 :=
  claim_C5_last_hit_wins ℚ SPSData.init SPSData.aligned_init testMap none id 0
    [] [] [] ⟨4, 1, 2, 3⟩ ⟨4, 10, 20, 30⟩ SPSChannelType.ScintLeft
    SPSDataField.ScintLeftEnergy SPSDataField.ScintLeftShort
    SPSDataField.ScintLeftTime rfl (by decide) (by decide)
    (fun h' hh' => absurd hh' (List.not_mem_nil h'))

/-- Claim C8: over a sequence of N `append_event` calls in which no hit of any
event resolves to a given routed role, that role's three columns are each a
sequence of N sentinel values afterwards. -/
theorem claim_C8_default_population (α : Type) [LinearOrderedField α]
    (arctan : α → α) (pi : α) (calls : List (EventCall α))
    (r : SPSChannelType) (fe fs ft : SPSDataField)
    (hr : role_fields r = [fe, fs, ft])
    (hnone : ∀ c ∈ calls, ∀ hit ∈ c.event, c.map hit.uuid ≠ some r) :
    (applyEvents arctan pi SPSData.init calls).fields fe =
      List.replicate calls.length INVALID_VALUE ∧
    (applyEvents arctan pi SPSData.init calls).fields fs =
      List.replicate calls.length INVALID_VALUE ∧
    (applyEvents arctan pi SPSData.init calls).fields ft =
      List.replicate calls.length INVALID_VALUE := by
  have key : ∀ f, f ∈ role_fields r →
      (applyEvents arctan pi SPSData.init calls).fields f =
        List.replicate calls.length INVALID_VALUE := by
    intro f hf
    obtain ⟨n1, n2, n3, n4⟩ := SPSData.role_fields_not_derived r f hf
    have hrec := SPSData.applyEvents_fields_unwritten arctan pi f n1 n2 n3 n4
      calls SPSData.init SPSData.aligned_init
      (fun c hc hit hh r' hm' hf' =>
        hnone c hc hit hh (hm'.trans (by rw [SPSData.role_fields_inj f r' r hf' hf])))
    rw [hrec]
    rfl
  exact ⟨key fe (by simp [hr]), key fs (by simp [hr]), key ft (by simp [hr])⟩

/-- Witness for C8: two concrete calls (an empty event and a ScintLeft-only
event) leave the Cathode columns as two sentinels. -/
theorem claim_C8_default_population_witness :
    (applyEvents (id : ℚ → ℚ) 0 SPSData.init
        [⟨[], testMap, none⟩, ⟨[⟨4, 1, 2, 3⟩], testMap, none⟩]).fields
        SPSDataField.CathodeEnergy = List.replicate 2 INVALID_VALUE ∧
    (applyEvents (id : ℚ → ℚ) 0 SPSData.init
        [⟨[], testMap, none⟩, ⟨[⟨4, 1, 2, 3⟩], testMap, none⟩]).fields
        SPSDataField.CathodeShort = List.replicate 2 INVALID_VALUE ∧
    (applyEvents (id : ℚ → ℚ) 0 SPSData.init
        [⟨[], testMap, none⟩, ⟨[⟨4, 1, 2, 3⟩], testMap, none⟩]).fields
        SPSDataField.CathodeTime = List.replicate 2 INVALID_VALUE := by
  have h := claim_C8_default_population ℚ id 0
    [⟨[], testMap, none⟩, ⟨[⟨4, 1, 2, 3⟩], testMap, none⟩]
    SPSChannelType.Cathode SPSDataField.CathodeEnergy SPSDataField.CathodeShort
    SPSDataField.CathodeTime rfl ?hn
  · exact h
  case hn =>
    intro c hc hit hh
    fin_cases hc
    · exact absurd hh (List.not_mem_nil hit)
    · fin_cases hh
      decide

/-- Claim C10: for every delay-line role, when the event's last hit of that
role carries a timestamp exactly equal to the sentinel −1×10⁶, `append_event`
treats that channel as absent for the derived computation — the corresponding
position estimate (X1 for the front roles, X2 for the back roles), and hence
Theta and Xavg, stays at the sentinel — even though the role's raw timestamp
column entry for the row is set to −1×10⁶. -/
theorem claim_C10_sentinel_timestamp (α : Type) [LinearOrderedField α]
    (d : SPSData α) (hAl : Aligned d) (map : Nat → Option SPSChannelType)
    (weights : Option (α × α)) (arctan : α → α) (pi : α)
    (l1 l2 : List (CompassData α)) (h : CompassData α) (r : SPSChannelType)
    (hrole : r = SPSChannelType.DelayFrontLeft ∨ r = SPSChannelType.DelayFrontRight ∨
             r = SPSChannelType.DelayBackLeft ∨ r = SPSChannelType.DelayBackRight)
    (hm : map h.uuid = some r) (hts : h.timestamp = INVALID_VALUE)
    (hl2 : ∀ h' ∈ l2, map h'.uuid ≠ some r)
    (fe fs ft : SPSDataField) (hr : role_fields r = [fe, fs, ft]) :
    ((SPSData.append_event d (l1 ++ h :: l2) map weights arctan pi).fields
        ft).getLast? = some INVALID_VALUE ∧
    ((r = SPSChannelType.DelayFrontLeft ∨ r = SPSChannelType.DelayFrontRight) →
      ((SPSData.append_event d (l1 ++ h :: l2) map weights arctan pi).fields
          SPSDataField.X1).getLast? = some INVALID_VALUE) ∧
    ((r = SPSChannelType.DelayBackLeft ∨ r = SPSChannelType.DelayBackRight) →
      ((SPSData.append_event d (l1 ++ h :: l2) map weights arctan pi).fields
          SPSDataField.X2).getLast? = some INVALID_VALUE) ∧
    ((SPSData.append_event d (l1 ++ h :: l2) map weights arctan pi).fields
        SPSDataField.Theta).getLast? = some INVALID_VALUE ∧
    ((SPSData.append_event d (l1 ++ h :: l2) map weights arctan pi).fields
        SPSDataField.Xavg).getLast? = some INVALID_VALUE := by
  obtain ⟨n1, n2, n3, n4⟩ := SPSData.role_fields_not_derived r ft (by simp [hr])
  obtain ⟨-, -, htime⟩ := SPSData.hit_state_last_write d hAl map l1 l2 h
    r fe fs ft hm hr hl2
  have htcol : ((SPSData.append_event d (l1 ++ h :: l2) map weights arctan
      pi).fields ft).getLast? = some INVALID_VALUE := by
    show ((SPSData.physics (SPSData.hit_state d (l1 ++ h :: l2) map) weights arctan
        pi).fields ft).getLast? = _
    rw [SPSData.physics_fields_frame _ _ _ _ _ n1 n2 n3 n4, htime, hts]
  rcases hrole with rfl | rfl | rfl | rfl
  · have hsup := SPSData.append_event_front_suppressed d hAl (l1 ++ h :: l2) map
      weights arctan pi (Or.inr ((SPSData.hit_state_dfl_last d map l1 l2 h hm hl2).trans hts))
    exact ⟨htcol, fun _ => hsup.1, fun hc => absurd hc (by decide),
      hsup.2.1, hsup.2.2⟩
  · have hsup := SPSData.append_event_front_suppressed d hAl (l1 ++ h :: l2) map
      weights arctan pi (Or.inl ((SPSData.hit_state_dfr_last d map l1 l2 h hm hl2).trans hts))
    exact ⟨htcol, fun _ => hsup.1, fun hc => absurd hc (by decide),
      hsup.2.1, hsup.2.2⟩
  · have hsup := SPSData.append_event_back_suppressed d hAl (l1 ++ h :: l2) map
      weights arctan pi (Or.inr ((SPSData.hit_state_dbl_last d map l1 l2 h hm hl2).trans hts))
    exact ⟨htcol, fun hc => absurd hc (by decide), fun _ => hsup.1,
      hsup.2.1, hsup.2.2⟩
  · have hsup := SPSData.append_event_back_suppressed d hAl (l1 ++ h :: l2) map
      weights arctan pi (Or.inl ((SPSData.hit_state_dbr_last d map l1 l2 h hm hl2).trans hts))
    exact ⟨htcol, fun hc => absurd hc (by decide), fun _ => hsup.1,
      hsup.2.1, hsup.2.2⟩

/-- Witness for C10: a single delay-back-right hit whose timestamp is the
sentinel; the raw DelayBackRightTime column records −1×10⁶ and X2, Theta,
Xavg stay at the sentinel. -/
theorem claim_C10_sentinel_timestamp_witness :
    ((SPSData.append_event (SPSData.init : SPSData ℚ)
        ([] ++ (⟨3, 1, 2, INVALID_VALUE⟩ : CompassData ℚ) :: []) testMap none id 0).fields
        SPSDataField.DelayBackRightTime).getLast? = some INVALID_VALUE ∧
    ((SPSData.append_event (SPSData.init : SPSData ℚ)
        ([] ++ (⟨3, 1, 2, INVALID_VALUE⟩ : CompassData ℚ) :: []) testMap none id 0).fields
        SPSDataField.X2).getLast? = some INVALID_VALUE ∧
    ((SPSData.append_event (SPSData.init : SPSData ℚ)
        ([] ++ (⟨3, 1, 2, INVALID_VALUE⟩ : CompassData ℚ) :: []) testMap none id 0).fields
        SPSDataField.Theta).getLast? = some INVALID_VALUE ∧
    ((SPSData.append_event (SPSData.init : SPSData ℚ)
        ([] ++ (⟨3, 1, 2, INVALID_VALUE⟩ : CompassData ℚ) :: []) testMap none id 0).fields
        SPSDataField.Xavg).getLast? = some INVALID_VALUE := by
  have h := claim_C10_sentinel_timestamp ℚ SPSData.init SPSData.aligned_init
    testMap none id 0 [] [] ⟨3, 1, 2, INVALID_VALUE⟩
    SPSChannelType.DelayBackRight (Or.inr (Or.inr (Or.inr rfl))) (by decide) rfl
    (fun h' hh' => absurd hh' (List.not_mem_nil h'))
    SPSDataField.DelayBackRightEnergy SPSDataField.DelayBackRightShort
    SPSDataField.DelayBackRightTime rfl
  exact ⟨h.1, h.2.2.1 (Or.inr rfl), h.2.2.2.1, h.2.2.2.2⟩

set_option maxHeartbeats 1000000 in
/-- Claim C9: the consuming conversion returns exactly one column per field — the
field list it walks enumerates every field exactly once, strictly in the
enum's total order (by discriminant) — and each returned column is named by
the field's stable string rendering and carries that field's value sequence
unchanged. -/
theorem claim_C9_convert_to_series (α : Type) [LinearOrderedField α]
    (d : SPSData α) :
    d.convert_to_series =
      SPSDataField.get_field_vec.map (fun f => (f.as_ref_str, d.fields f)) ∧
    (∀ f : SPSDataField, f ∈ SPSDataField.get_field_vec) ∧
    SPSDataField.get_field_vec.Nodup ∧
    List.Pairwise (fun a b => a.discriminant < b.discriminant)
      SPSDataField.get_field_vec :=
  ⟨rfl, by decide, by decide, by decide⟩

end SPS
